import Mathlib

/-!
# tools/kvm/hw/vga.c — register-level model of the emulated VGA adapter

Shallow embedding of the port handlers `vga_ioport_in` and `vga_ioport_out`,
of the MMIO handlers `vga_mmio_callback*`, and of the static device `vga`
they act on.  The handlers mutate one global object; here each takes the
device as an argument and returns the device it leaves behind.

* Every `u8` member is a natural number; a conversion to eight bits is
  written `u8 _` at the place where the C text converts.
* The C arrays are total maps from positions to bytes.  A position past the
  end of an array is a position of the same map; the statements about the
  DAC fix the sub-index they start from, so that no such position is used.
* The C `switch` statements are rendered label by label: the body that
  starts at a `case` label is a function, and it ends by calling the body of
  the next label exactly where the C text has no `break`.
-/

namespace KvmVga

/-! ## Constants of `vga.c` (lines 6-82) -/

abbrev VGA_SEQ_INDEX : Nat := 0x3c4
abbrev VGA_SEQ_DATA : Nat := 0x3c5
abbrev VGA_SEQ_MAP_MASK : Nat := 0x02
abbrev VGA_SEQ_MEMORY_MODE : Nat := 0x04

abbrev VGA_CRT_COLOR_INDEX : Nat := 0x3b4
abbrev VGA_CRT_COLOR_DATA : Nat := 0x3b5
abbrev VGA_CRT_MONO_INDEX : Nat := 0x3d4
abbrev VGA_CRT_MONO_DATA : Nat := 0x3d5

abbrev VGA_GFX_INDEX : Nat := 0x3ce
abbrev VGA_GFX_DATA : Nat := 0x3cf
abbrev VGA_GFX_READ_MAP_SELECT : Nat := 0x04
abbrev VGA_GFX_GRAPHIC_MODE : Nat := 0x05
abbrev VGA_GFX_GRAPHIC_MODE_OE : Nat := 0x10
abbrev VGA_GFX_GRAPHIC_MODE_WM : Nat := 0x03
abbrev VGA_GFX_MISC : Nat := 0x06
abbrev VGA_GFX_MISC_MM : Nat := 0x0c

abbrev VGA_ATT_DATA_WRITE : Nat := 0x3c0
abbrev VGA_ATT_DATA_READ : Nat := 0x3c1
abbrev VGA_ATT_PALETTE0 : Nat := 0x00
abbrev VGA_ATT_PALETTEF : Nat := 0x0f
abbrev VGA_ATT_ATTRIBUTE_MODE_CONTROL : Nat := 0x10
abbrev VGA_ATT_OVERSCAN_COLOR : Nat := 0x11
abbrev VGA_ATT_COLOR_PLANE_ENABLE : Nat := 0x12
abbrev VGA_ATT_PEL : Nat := 0x13
abbrev VGA_ATT_COLOR_SELECT : Nat := 0x14

abbrev VGA_DAC_READ_INDEX : Nat := 0x3c7
abbrev VGA_DAC_WRITE_INDEX : Nat := 0x3c8
abbrev VGA_DAC_DATA : Nat := 0x3c9

abbrev VGA_MISC_OUTPUT_READ : Nat := 0x3cc
abbrev VGA_MISC_OUTPUT_WRITE : Nat := 0x3c2
abbrev VGA_MISC_FEATURE_READ : Nat := 0x3ca
abbrev VGA_MISC_FEATURE_WRITE_MONO : Nat := 0x3ba
abbrev VGA_MISC_FEATURE_WRITE_COLOR : Nat := 0x3da
abbrev VGA_MISC_INPUT_STATUS0 : Nat := 0x3c2
abbrev VGA_MISC_INPUT_STATUS1_MONO : Nat := 0x3ba
abbrev VGA_MISC_INPUT_STATUS1_COLOR : Nat := 0x3da
abbrev VGA_MISC_ENABLE : Nat := 0x3c3

abbrev PLANE_SIZE : Nat := 64 * 1024 * 1024

/-! ## Machine arithmetic and memory -/

/-- Conversion of an integer value to the C type `u8`. -/
def u8 (n : Nat) : Nat := n % 256

/-- The C assignment `a[i] = v` on an array seen as a map from positions. -/
def arr_set (a : Nat → Nat) (i v : Nat) : Nat → Nat :=
  fun j => if j = i then v else a j

/-- The C call `memcpy(&dst[off], src, n)`: positions `off .. off + n - 1`
of `dst` receive `src[0] .. src[n - 1]`. -/
def memcpy (dst : Nat → Nat) (off : Nat) (src : Nat → Nat) (n : Nat) : Nat → Nat :=
  fun j => if off ≤ j ∧ j < off + n then src (j - off) else dst j

/-- Modelled from the spec: `ioport__read8` of `kvm/ioport.h`, which is not
among the sources.  Port accesses are byte-width, so it yields the byte
operand of the access. -/
def ioport__read8 (data : Nat) : Nat := data % 256

/-- Modelled from the spec: `ioport__write8` of `kvm/ioport.h`, which is not
among the sources.  It stores the byte `val` as the result of the access;
the model returns the stored byte. -/
def ioport__write8 (val : Nat) : Nat := val

/-! ## The device (lines 84-123) -/

/-- The C `struct vga_device`, without the `fb` descriptor that the port
handlers never touch.  `plane` is the buffer `vga.plane` points to. -/
structure vga_device where
  crt_reg_index : Nat
  crt_reg : Nat → Nat
  seq_reg_index : Nat
  seq_reg : Nat → Nat
  gfx_reg_index : Nat
  gfx_reg : Nat → Nat
  att_reg_flip : Nat
  att_reg_index : Nat
  att_reg : Nat → Nat
  dac_read_index : Nat
  dac_write_index : Nat
  dac_state : Nat
  dac_sub_reg : Nat → Nat
  dac_sub_index : Nat
  dac_reg : Nat → Nat
  dac_palette : Nat → Nat
  misc_status0 : Nat
  misc_status1 : Nat
  misc_feature : Nat
  misc_output : Nat
  vram_start : Nat
  vram_len : Nat
  plane : Nat → Nat

/-- The static object `vga` (lines 120-123): every member zero except the
window base and length; `plane` is the `calloc`ed buffer of `vga_init`. -/
def vga : vga_device where
  crt_reg_index := 0
  crt_reg := fun _ => 0
  seq_reg_index := 0
  seq_reg := fun _ => 0
  gfx_reg_index := 0
  gfx_reg := fun _ => 0
  att_reg_flip := 0
  att_reg_index := 0
  att_reg := fun _ => 0
  dac_read_index := 0
  dac_write_index := 0
  dac_state := 0
  dac_sub_reg := fun _ => 0
  dac_sub_index := 0
  dac_reg := fun _ => 0
  dac_palette := fun _ => 0
  misc_status0 := 0
  misc_status1 := 0
  misc_feature := 0
  misc_output := 0
  vram_start := 0xA0000
  vram_len := 0x20000
  plane := fun _ => 0

/-! ## `vga_ioport_in` (lines 150-214) -/

/-- What `vga_ioport_in` leaves behind: the device, the byte handed to
`ioport__write8`, and the function's return value. -/
structure io_in_result where
  dev : vga_device
  data : Nat
  ret : Bool

/-- Lines 208-210, `default:`: `val = 0; break;`. -/
def in_default (s : vga_device) (_val : Nat) : vga_device × Nat :=
  (s, 0)

/-- Lines 204-207, `case VGA_MISC_INPUT_STATUS1_MONO/COLOR:`; there is no
`break`, control continues at `default:`. -/
def in_misc_input_status1 (s : vga_device) (_val : Nat) : vga_device × Nat :=
  let val := s.misc_status1
  in_default { s with att_reg_flip := 0 } val

/-- Lines 202-203, `case VGA_MISC_FEATURE_READ:`; no `break`. -/
def in_misc_feature_read (s : vga_device) (_val : Nat) : vga_device × Nat :=
  in_misc_input_status1 s s.misc_feature

/-- Lines 200-201, `case VGA_MISC_OUTPUT_READ:`; no `break`. -/
def in_misc_output_read (s : vga_device) (_val : Nat) : vga_device × Nat :=
  in_misc_feature_read s s.misc_output

/-- Lines 174-179, `case VGA_ATT_DATA_WRITE:` up to its `break`. -/
def in_att_data_write (s : vga_device) (_val : Nat) : vga_device × Nat :=
  if s.att_reg_flip = 0 then (s, s.att_reg_index) else (s, 0)

/-- Lines 172-173, `case VGA_GFX_DATA:`; no `break`, control continues at
`case VGA_ATT_DATA_WRITE:`. -/
def in_gfx_data (s : vga_device) (_val : Nat) : vga_device × Nat :=
  in_att_data_write s (s.gfx_reg s.gfx_reg_index)

/-- Lines 189-196, `case VGA_DAC_DATA:`. -/
def in_dac_data (s : vga_device) (_val : Nat) : vga_device × Nat :=
  let val := s.dac_palette (s.dac_read_index * 3 + s.dac_sub_index)
  let sub := u8 (s.dac_sub_index + 1)
  if sub = 3 then
    ({ s with dac_sub_index := 0, dac_read_index := u8 (s.dac_read_index + 1) }, val)
  else
    ({ s with dac_sub_index := sub }, val)

/-- The `switch (port)` of `vga_ioport_in` (lines 154-211): the device and
the value of `val` when the switch is left.  `val0` is the indeterminate
initial content of the local `val`; every path overwrites it. -/
def in_switch (s : vga_device) (port : Nat) (val0 : Nat) : vga_device × Nat :=
  if port = VGA_CRT_COLOR_INDEX ∨ port = VGA_CRT_MONO_INDEX then
    (s, s.crt_reg_index)
  else if port = VGA_CRT_COLOR_DATA ∨ port = VGA_CRT_MONO_DATA then
    (s, s.crt_reg s.crt_reg_index)
  else if port = VGA_SEQ_INDEX then
    (s, s.seq_reg_index)
  else if port = VGA_SEQ_DATA then
    (s, s.seq_reg s.seq_reg_index)
  else if port = VGA_GFX_INDEX then
    (s, s.gfx_reg_index)
  else if port = VGA_GFX_DATA then
    in_gfx_data s val0
  else if port = VGA_ATT_DATA_WRITE then
    in_att_data_write s val0
  else if port = VGA_ATT_DATA_READ then
    (s, s.att_reg (s.att_reg_index &&& 0x1f))
  else if port = VGA_DAC_READ_INDEX then
    (s, s.dac_read_index)
  else if port = VGA_DAC_WRITE_INDEX then
    (s, s.dac_write_index)
  else if port = VGA_DAC_DATA then
    in_dac_data s val0
  else if port = VGA_MISC_INPUT_STATUS0 then
    (s, s.misc_status0)
  else if port = VGA_MISC_OUTPUT_READ then
    in_misc_output_read s val0
  else if port = VGA_MISC_FEATURE_READ then
    in_misc_feature_read s val0
  else if port = VGA_MISC_INPUT_STATUS1_MONO ∨ port = VGA_MISC_INPUT_STATUS1_COLOR then
    in_misc_input_status1 s val0
  else
    in_default s val0

/-- The handler `vga_ioport_in(ioport, kvm, port, data, size)` acting on the
device `s`: the switch, then `ioport__write8(data, val); return true;`. -/
def vga_ioport_in (s : vga_device) (port : Nat) : io_in_result :=
  let r := in_switch s port 0
  { dev := r.1, data := ioport__write8 r.2, ret := true }

/-! ## `vga_ioport_out` (lines 216-305) -/

/-- What `vga_ioport_out` leaves behind: the device and the return value. -/
structure io_out_result where
  dev : vga_device
  ret : Bool

/-- Lines 300-301, `default: break;`. -/
def out_default (s : vga_device) (_val : Nat) : vga_device := s

/-- Lines 296-299, `case VGA_MISC_ENABLE:`: a log line only; no `break`. -/
def out_misc_enable (s : vga_device) (val : Nat) : vga_device :=
  out_default s val

/-- Lines 293-295, `case VGA_MISC_FEATURE_WRITE_MONO/COLOR:`; no `break`. -/
def out_misc_feature_write (s : vga_device) (val : Nat) : vga_device :=
  out_misc_enable { s with misc_feature := u8 val } val

/-- Lines 248-267: the inner `switch (index)` with the per-register masks.
`val` is a `u32`, so `~0x10` is `0xffffffef`, and the store truncates. -/
def att_store (s : vga_device) (index val : Nat) : vga_device :=
  if VGA_ATT_PALETTE0 ≤ index ∧ index ≤ VGA_ATT_PALETTEF then
    { s with att_reg := arr_set s.att_reg index (u8 (val &&& 0x3f)) }
  else if index = VGA_ATT_ATTRIBUTE_MODE_CONTROL then
    { s with att_reg := arr_set s.att_reg index (u8 (val &&& 0xffffffef)) }
  else if index = VGA_ATT_OVERSCAN_COLOR then
    { s with att_reg := arr_set s.att_reg index (u8 val) }
  else if index = VGA_ATT_COLOR_PLANE_ENABLE then
    { s with att_reg := arr_set s.att_reg index (u8 (val &&& 0xffffff3f)) }
  else if index = VGA_ATT_PEL then
    { s with att_reg := arr_set s.att_reg index (u8 (val &&& 0xffffff0f)) }
  else if index = VGA_ATT_COLOR_SELECT then
    { s with att_reg := arr_set s.att_reg index (u8 (val &&& 0xffffff0f)) }
  else
    s

/-- Lines 243-270, `case VGA_ATT_DATA_WRITE:` up to its `break`. -/
def out_att_data_write (s : vga_device) (val : Nat) : vga_device :=
  if s.att_reg_flip = 0 then
    { s with att_reg_index := u8 (val &&& 0x3f) }
  else
    let index := u8 (s.att_reg_index &&& 0x1f)
    let s1 := att_store s index val
    { s1 with att_reg_flip := u8 (s1.att_reg_flip ^^^ 1) }

/-- Lines 241-242, `case VGA_GFX_DATA:`; no `break`, control continues at
`case VGA_ATT_DATA_WRITE:`. -/
def out_gfx_data (s : vga_device) (val : Nat) : vga_device :=
  out_att_data_write
    { s with gfx_reg := arr_set s.gfx_reg s.gfx_reg_index (u8 val) } val

/-- Lines 281-289, `case VGA_DAC_DATA:`. -/
def out_dac_data (s : vga_device) (val : Nat) : vga_device :=
  let sub_reg := arr_set s.dac_sub_reg s.dac_sub_index (u8 (val &&& 0x3f))
  let sub := u8 (s.dac_sub_index + 1)
  if sub = 3 then
    { s with
      dac_sub_reg := sub_reg
      dac_palette := memcpy s.dac_palette (s.dac_write_index * 3) sub_reg 3
      dac_sub_index := 0
      dac_write_index := u8 (s.dac_write_index + 1) }
  else
    { s with dac_sub_reg := sub_reg, dac_sub_index := sub }

/-- The `switch (port)` of `vga_ioport_out` (lines 223-302). -/
def out_switch (s : vga_device) (port : Nat) (val : Nat) : vga_device :=
  if port = VGA_CRT_COLOR_INDEX ∨ port = VGA_CRT_MONO_INDEX then
    { s with crt_reg_index := u8 val }
  else if port = VGA_CRT_COLOR_DATA ∨ port = VGA_CRT_MONO_DATA then
    { s with crt_reg := arr_set s.crt_reg s.crt_reg_index (u8 val) }
  else if port = VGA_SEQ_INDEX then
    { s with seq_reg_index := u8 val }
  else if port = VGA_SEQ_DATA then
    { s with seq_reg := arr_set s.seq_reg s.seq_reg_index (u8 val) }
  else if port = VGA_GFX_INDEX then
    { s with gfx_reg_index := u8 val }
  else if port = VGA_GFX_DATA then
    out_gfx_data s val
  else if port = VGA_ATT_DATA_WRITE then
    out_att_data_write s val
  else if port = VGA_DAC_READ_INDEX then
    { s with dac_read_index := u8 val, dac_sub_index := 0, dac_state := 3 }
  else if port = VGA_DAC_WRITE_INDEX then
    { s with dac_write_index := u8 val, dac_sub_index := 0, dac_state := 0 }
  else if port = VGA_DAC_DATA then
    out_dac_data s val
  else if port = VGA_MISC_OUTPUT_WRITE then
    { s with misc_output := u8 (val &&& 0xffffffef) }
  else if port = VGA_MISC_FEATURE_WRITE_MONO ∨ port = VGA_MISC_FEATURE_WRITE_COLOR then
    out_misc_feature_write s val
  else if port = VGA_MISC_ENABLE then
    out_misc_enable s val
  else
    out_default s val

/-- The handler `vga_ioport_out(ioport, kvm, port, data, size)` acting on
the device `s`: `val = ioport__read8(data)`, the switch, `return true`. -/
def vga_ioport_out (s : vga_device) (port : Nat) (data : Nat) : io_out_result :=
  let val := ioport__read8 data
  { dev := out_switch s port val, ret := true }

/-! ## Guest accesses in sequence -/

/-- The device after the guest executes `OUT port, data`. -/
def outb (s : vga_device) (port data : Nat) : vga_device :=
  (vga_ioport_out s port data).dev

/-- The byte the guest receives from `IN port`. -/
def inb (s : vga_device) (port : Nat) : Nat :=
  (vga_ioport_in s port).data

/-- The device after the guest executes `IN port`. -/
def after_inb (s : vga_device) (port : Nat) : vga_device :=
  (vga_ioport_in s port).dev

/-! ## `vga_mmio_callback` (lines 361-459) -/

/-- Subtraction `a - b` in the C type `u64`. -/
def u64_sub (a b : Nat) : Nat := (a + 2 ^ 64 - b % 2 ^ 64) % 2 ^ 64

/-- Lines 385-400, `switch (memory_map_mode)`: the rebased address.  The
labels are the integers 0, 1, 2, 3; any other value takes `default:`. -/
def mmio_rebase (memory_map_mode addr : Nat) : Nat :=
  if memory_map_mode = 0 then u64_sub addr 0xA0000
  else if memory_map_mode = 1 then u64_sub addr 0xA0000
  else if memory_map_mode = 2 then u64_sub addr 0xB0000
  else if memory_map_mode = 3 then u64_sub addr 0xB8000
  else addr

/-- The C expression `1 < plane` stored in the `u8 mask`: 1 when it holds,
0 otherwise. -/
def mmio_mask (plane : Nat) : Nat := if 1 < plane then 1 else 0

/-- Line 411, `plane = addr & 0x03;` in the chain-4 branch, stored in a `u8`. -/
def chain4_plane (addr : Nat) : Nat := u8 (addr &&& 0x03)

/-- Line 419, `plane = (read_map_select & 0x02) | (addr & 0x01);` in the
odd/even branch, stored in a `u8`. -/
def odd_even_plane (read_map_select addr : Nat) : Nat :=
  u8 ((read_map_select &&& 0x02) ||| (addr &&& 0x01))

/-- The handler `vga_mmio_callback_write(addr, data, len, ptr)` (lines
366-451) acting on the device `s`; `data` is the guest buffer of `len`
bytes.  The four write modes of the planar branch have empty bodies. -/
def vga_mmio_callback_write (s : vga_device) (addr : Nat) (data : Nat → Nat) (len : Nat) :
    vga_device :=
  let map_mask := u8 (s.seq_reg VGA_SEQ_MAP_MASK &&& 0x0f)
  let chain4 : Bool := decide (s.seq_reg VGA_SEQ_MEMORY_MODE &&& 0x08 ≠ 0)
  let graphic_mode := s.gfx_reg VGA_GFX_GRAPHIC_MODE
  let read_map_select := s.gfx_reg VGA_GFX_READ_MAP_SELECT
  let memory_map_mode := u8 (s.gfx_reg VGA_GFX_MISC &&& VGA_GFX_MISC_MM)
  let addr := mmio_rebase memory_map_mode addr
  if chain4 then
    let plane := chain4_plane addr
    let mask := mmio_mask plane
    if map_mask &&& mask ≠ 0 then
      { s with plane := memcpy s.plane addr data len }
    else
      s
  else if graphic_mode &&& VGA_GFX_GRAPHIC_MODE_OE ≠ 0 then
    let plane := odd_even_plane read_map_select addr
    let mask := mmio_mask plane
    if map_mask &&& mask ≠ 0 then
      { s with plane := memcpy s.plane addr data len }
    else
      s
  else
    s

/-- The handler `vga_mmio_callback_read(addr, data, len, ptr)` (lines
361-364): its body is empty, so the device and the caller's buffer `data`
are left as they are. -/
def vga_mmio_callback_read (s : vga_device) (_addr : Nat) (data : Nat → Nat) (_len : Nat) :
    vga_device × (Nat → Nat) :=
  (s, data)

/-- The dispatcher `vga_mmio_callback(addr, data, len, is_write, ptr)`
(lines 453-459): the device and the buffer after the call. -/
def vga_mmio_callback (s : vga_device) (addr : Nat) (data : Nat → Nat) (len : Nat)
    (is_write : Nat) : vga_device × (Nat → Nat) :=
  if is_write ≠ 0 then
    (vga_mmio_callback_write s addr data len, data)
  else
    vga_mmio_callback_read s addr data len

/-- The address `vga_mmio_callback_write` works with after its
`switch (memory_map_mode)` (lines 376 and 385-400), for guest address `addr`. -/
def rebased_addr (s : vga_device) (addr : Nat) : Nat :=
  mmio_rebase (u8 (s.gfx_reg VGA_GFX_MISC &&& VGA_GFX_MISC_MM)) addr

/-- The value of the local `plane` that `vga_mmio_callback_write` tests in
its gate: line 411 when chain-4 is set, line 419 otherwise. -/
def selected_plane (s : vga_device) (addr : Nat) : Nat :=
  if s.seq_reg VGA_SEQ_MEMORY_MODE &&& 0x08 ≠ 0 then
    chain4_plane (rebased_addr s addr)
  else
    odd_even_plane (s.gfx_reg VGA_GFX_READ_MAP_SELECT) (rebased_addr s addr)

/-! ## Sequences of guest accesses -/

/-- One access of the guest to the adapter: a port IN, a port OUT of a
value, an MMIO write of a buffer of `len` bytes, or an MMIO read. -/
inductive guest_access where
  | port_in (port : Nat)
  | port_out (port data : Nat)
  | mmio_write (addr : Nat) (data : Nat → Nat) (len : Nat)
  | mmio_read (addr : Nat) (data : Nat → Nat) (len : Nat)

/-- The device after one guest access, through the handler the host calls
for it. -/
def access (s : vga_device) : guest_access → vga_device
  | guest_access.port_in port => after_inb s port
  | guest_access.port_out port data => outb s port data
  | guest_access.mmio_write addr data len => (vga_mmio_callback s addr data len 1).1
  | guest_access.mmio_read addr data len => (vga_mmio_callback s addr data len 0).1

/-- The device after a sequence of guest accesses, first access first. -/
def run (s : vga_device) (l : List guest_access) : vga_device :=
  l.foldl access s

/-- The device after a one-byte MMIO write of `d` at guest address `addr`. -/
def mmio_write_byte (s : vga_device) (addr d : Nat) : vga_device :=
  (vga_mmio_callback s addr (fun _ => d) 1 1).1

/-- The first byte of the caller's buffer after an MMIO read of `len` bytes
at guest address `addr`, the buffer holding `data` before the call. -/
def mmio_read_byte (s : vga_device) (addr : Nat) (data : Nat → Nat) (len : Nat) : Nat :=
  (vga_mmio_callback s addr data len 0).2 0

/-- The ports of the specification's I/O table. -/
def spec_ports : List Nat :=
  [0x3b4, 0x3b5, 0x3d4, 0x3d5, 0x3c4, 0x3c5, 0x3ce, 0x3cf, 0x3c0, 0x3c1, 0x3c7, 0x3c8,
   0x3c9, 0x3c2, 0x3cc, 0x3ca, 0x3ba, 0x3da, 0x3c3]

/-! ## Invariants of the reachable devices -/

/-- The DAC part of a device is well formed: the sub-index is 0, 1 or 2,
every palette byte and every pending byte is at most 0x3F, and both cursors
are bytes. -/
def dac_inv (s : vga_device) : Prop :=
  s.dac_sub_index < 3 ∧ (∀ j, s.dac_palette j ≤ 0x3f) ∧ (∀ k, s.dac_sub_reg k ≤ 0x3f) ∧
  s.dac_read_index < 256 ∧ s.dac_write_index < 256

/-- The Attribute latch is in AwaitIndex and no Attribute register has been
written: the flip-flop is 0 and every slot of `att_reg` is 0. -/
def att_inv (s : vga_device) : Prop :=
  s.att_reg_flip = 0 ∧ ∀ j, s.att_reg j = 0

/-! ## Specification-side tables -/

/-- The write mask of Attribute register `i` as the specification lists it:
six bits for the palette registers `0x00 .. 0x0f`, bit 4 cleared for mode
control `0x10`, nothing cleared for overscan `0x11`, bits 6-7 cleared for
colour-plane enable `0x12`, bits 4-7 cleared for `0x13` and `0x14`. -/
def spec_att_mask (i : Nat) : Nat :=
  if i ≤ 0x0f then 0x3f
  else if i = 0x10 then 0xef
  else if i = 0x11 then 0xff
  else if i = 0x12 then 0x3f
  else 0x0f

/-! ## Sample devices -/

/-- A device in the AwaitData state, with the Attribute index at the
colour-plane-enable register: the attach-time device with `att_reg_flip = 1`
and `att_reg_index = 0x12`. -/
def await_data_dev : vga_device :=
  { vga with att_reg_flip := 1, att_reg_index := 0x12 }

/-- A device whose flip-flop is set and whose Attribute register 7 holds
0x2A: the attach-time device with these two members changed. -/
def latched_dev : vga_device :=
  { vga with att_reg_flip := 1, att_reg := arr_set vga.att_reg 7 0x2a }

/-- The attach-time device after the guest has set chain-4 (Sequencer
register 4 = 0x08) and the map mask `m` (Sequencer register 2). -/
def chain4_dev (m : Nat) : vga_device :=
  outb (outb (outb (outb vga 0x3c4 0x04) 0x3c5 0x08) 0x3c4 0x02) 0x3c5 m

/-- The device `chain4_dev m` after the guest has also written `mm` to the
Graphics miscellaneous register 6, whose bits 3:2 select the window. -/
def window_dev (m mm : Nat) : vga_device :=
  outb (outb (chain4_dev m) 0x3ce 0x06) 0x3cf mm

/-- The attach-time device after the port writes of the specification's
end-to-end scenario: map mask 0x0F, graphics mode 0, memory mode 0. -/
def planar_dev : vga_device :=
  outb (outb (outb (outb (outb (outb vga 0x3c4 0x02) 0x3c5 0x0f) 0x3ce 0x05) 0x3cf 0x00)
    0x3c4 0x04) 0x3c5 0x00

/-! ## Arithmetic helpers -/

theorem u8_of_lt {n : Nat} (h : n < 256) : u8 n = n :=
  Nat.mod_eq_of_lt h

theorem read8_of_lt {n : Nat} (h : n < 256) : ioport__read8 n = n :=
  Nat.mod_eq_of_lt h

theorem u8_and_3f (v : Nat) : u8 (v &&& 0x3f) = v &&& 0x3f :=
  Nat.mod_eq_of_lt (Nat.lt_of_le_of_lt Nat.and_le_right (by decide))

theorem u8_and_1f (v : Nat) : u8 (v &&& 0x1f) = v &&& 0x1f :=
  Nat.mod_eq_of_lt (Nat.lt_of_le_of_lt Nat.and_le_right (by decide))

set_option maxRecDepth 100000 in
theorem u8_and_not_10 {v : Nat} (h : v < 256) : u8 (v &&& 0xffffffef) = v &&& 0xef := by
  have key : ∀ x < 256, (x &&& 0xffffffef) % 256 = x &&& 0xef := by decide
  exact key v h

set_option maxRecDepth 100000 in
theorem u8_and_not_c0 {v : Nat} (h : v < 256) : u8 (v &&& 0xffffff3f) = v &&& 0x3f := by
  have key : ∀ x < 256, (x &&& 0xffffff3f) % 256 = x &&& 0x3f := by decide
  exact key v h

set_option maxRecDepth 100000 in
theorem u8_and_not_f0 {v : Nat} (h : v < 256) : u8 (v &&& 0xffffff0f) = v &&& 0x0f := by
  have key : ∀ x < 256, (x &&& 0xffffff0f) % 256 = x &&& 0x0f := by decide
  exact key v h

set_option maxRecDepth 100000 in
theorem u8_succ_small : u8 (0 + 1) = 1 ∧ u8 (1 + 1) = 2 ∧ u8 (2 + 1) = 3 := by
  decide

set_option maxRecDepth 100000 in
theorem and_ff_of_lt {v : Nat} (h : v < 256) : v &&& 0xff = v := by
  have key : ∀ x < 256, x &&& 0xff = x := by decide
  exact key v h

/-! ## Index and data ports -/

/-- C1: for every device state and every byte `b`, an OUT of `b` to an index
port followed by an IN from the same port returns `b`; this holds for the CRT
index ports 0x3B4 and 0x3D4, the Sequencer index port 0x3C4, the Graphics
index port 0x3CE, the DAC read-index port 0x3C7 and the DAC write-index port
0x3C8. -/
theorem index_round_trip (s : vga_device) (b : Nat) (hb : b < 256) :
    inb (outb s 0x3b4 b) 0x3b4 = b ∧ inb (outb s 0x3d4 b) 0x3d4 = b ∧
    inb (outb s 0x3c4 b) 0x3c4 = b ∧ inb (outb s 0x3ce b) 0x3ce = b ∧
    inb (outb s 0x3c7 b) 0x3c7 = b ∧ inb (outb s 0x3c8 b) 0x3c8 = b := by
  simp [inb, outb, vga_ioport_in, vga_ioport_out, in_switch, out_switch,
    ioport__write8, read8_of_lt hb, u8_of_lt hb]

theorem index_round_trip_witness :
    (0xa5 < 256) ∧
    (inb (outb vga 0x3b4 0xa5) 0x3b4 = 0xa5 ∧ inb (outb vga 0x3d4 0xa5) 0x3d4 = 0xa5 ∧
     inb (outb vga 0x3c4 0xa5) 0x3c4 = 0xa5 ∧ inb (outb vga 0x3ce 0xa5) 0x3ce = 0xa5 ∧
     inb (outb vga 0x3c7 0xa5) 0x3c7 = 0xa5 ∧ inb (outb vga 0x3c8 0xa5) 0x3c8 = 0xa5) :=
  ⟨by decide, index_round_trip vga 0xa5 (by decide)⟩

/-- C2: for every device state and all bytes `i`, `v`, after OUT(index port,
`i`) and OUT(data port, `v`) an IN from the data port returns `v` and slot
`i` of the bank holds `v`.  This holds for the Sequencer (0x3C4/0x3C5) and
for the CRT bank, where the index write, the data write and the data read
may each use either alias (0x3B4 or 0x3D4, 0x3B5 or 0x3D5). -/
theorem data_round_trip (s : vga_device) (i v : Nat) (hi : i < 256) (hv : v < 256) :
    (inb (outb (outb s 0x3c4 i) 0x3c5 v) 0x3c5 = v ∧
      (outb (outb s 0x3c4 i) 0x3c5 v).seq_reg i = v) ∧
    (∀ pi ∈ [0x3b4, 0x3d4], ∀ pw ∈ [0x3b5, 0x3d5], ∀ pr ∈ [0x3b5, 0x3d5],
      inb (outb (outb s pi i) pw v) pr = v ∧
      (outb (outb s pi i) pw v).crt_reg i = v) := by
  simp [inb, outb, vga_ioport_in, vga_ioport_out, in_switch, out_switch,
    ioport__write8, read8_of_lt hi, read8_of_lt hv, u8_of_lt hi, u8_of_lt hv, arr_set]

theorem data_round_trip_witness :
    (0x11 < 256 ∧ 0xc3 < 256) ∧
    ((inb (outb (outb vga 0x3c4 0x11) 0x3c5 0xc3) 0x3c5 = 0xc3 ∧
      (outb (outb vga 0x3c4 0x11) 0x3c5 0xc3).seq_reg 0x11 = 0xc3) ∧
    (∀ pi ∈ [0x3b4, 0x3d4], ∀ pw ∈ [0x3b5, 0x3d5], ∀ pr ∈ [0x3b5, 0x3d5],
      inb (outb (outb vga pi 0x11) pw 0xc3) pr = 0xc3 ∧
      (outb (outb vga pi 0x11) pw 0xc3).crt_reg 0x11 = 0xc3)) :=
  ⟨by decide, data_round_trip vga 0x11 0xc3 (by decide) (by decide)⟩

/-! ## Graphics data port: the two missing `break`s -/

/-- C3 (evaluation at the failing input): from the attach-time device, after
OUT(0x3CE, 0x05) and OUT(0x3CF, 0xFF) Graphics register 5 holds 0xFF, yet an
IN from the Graphics data port 0x3CF delivers 0x3F: `case VGA_GFX_DATA` of
`vga_ioport_in` has no `break`, so the value read is replaced by what the
Attribute case computes (the Attribute index while the flip-flop is clear). -/
theorem gfx_data_read_overwritten :
    (outb (outb vga 0x3ce 0x05) 0x3cf 0xff).gfx_reg_index = 0x05 ∧
    (outb (outb vga 0x3ce 0x05) 0x3cf 0xff).gfx_reg 0x05 = 0xff ∧
    (outb (outb vga 0x3ce 0x05) 0x3cf 0xff).att_reg_flip = 0 ∧
    (outb (outb vga 0x3ce 0x05) 0x3cf 0xff).att_reg_index = 0x3f ∧
    inb (outb (outb vga 0x3ce 0x05) 0x3cf 0xff) 0x3cf = 0x3f := by
  decide

/-- C4 (evaluation at the failing input): from the attach-time device, whose
Attribute index is 0, an OUT of 0x01 to the Graphics data port 0x3CF stores
0x01 in Graphics register 0 and also sets the Attribute index to 0x01:
`case VGA_GFX_DATA` of `vga_ioport_out` has no `break` and runs the Attribute
case as well. -/
theorem gfx_data_write_cascades :
    vga.gfx_reg_index = 0 ∧ vga.att_reg_index = 0 ∧
    (outb vga 0x3cf 0x01).gfx_reg 0 = 0x01 ∧
    (outb vga 0x3cf 0x01).att_reg_index = 0x01 := by
  decide

/-! ## Attribute controller -/

/-- C5 (evaluation at the failing input): from the attach-time device, whose
flip-flop is clear, the two writes OUT(0x3C0, 0x05), OUT(0x3C0, 0x2A) leave
Attribute register 5 at 0 instead of 0x2A; the flip-flop is still clear after
the first write, so the second write is taken as an index too and the
Attribute index ends as 0x2A. -/
theorem att_index_then_data_not_stored :
    vga.att_reg_flip = 0 ∧
    (outb vga 0x3c0 0x05).att_reg_flip = 0 ∧
    (outb vga 0x3c0 0x05).att_reg_index = 0x05 ∧
    (outb (outb vga 0x3c0 0x05) 0x3c0 0x2a).att_reg 0x05 = 0 ∧
    (outb (outb vga 0x3c0 0x05) 0x3c0 0x2a).att_reg_index = 0x2a ∧
    (outb (outb vga 0x3c0 0x05) 0x3c0 0x2a).att_reg_flip = 0 := by
  decide

/-- C6: for every device state whose flip-flop is set (`att_reg_flip = 1`)
and whose `att_reg_index & 0x1F` is a register `i` in 0x00 .. 0x14, and for
every byte `v`, an OUT of `v` to port 0x3C0 stores `v` masked by the
register's write mask in `att_reg[i]` (six bits for 0x00 .. 0x0F, bit 4
cleared for 0x10, unmasked for 0x11, bits 6-7 cleared for 0x12, bits 4-7
cleared for 0x13 and 0x14), leaves every other `att_reg` slot and
`att_reg_index` unchanged, and clears the flip-flop. -/
theorem att_data_write_masked (s : vga_device) (i v : Nat)
    (hflip : s.att_reg_flip = 1) (hidx : s.att_reg_index &&& 0x1f = i)
    (hi : i ≤ 0x14) (hv : v < 256) :
    (outb s 0x3c0 v).att_reg i = v &&& spec_att_mask i ∧
    (i ≤ 0x0f → (outb s 0x3c0 v).att_reg i = v &&& 0x3f) ∧
    (i = 0x10 → (outb s 0x3c0 v).att_reg i = v &&& 0xef) ∧
    (i = 0x11 → (outb s 0x3c0 v).att_reg i = v) ∧
    (i = 0x12 → (outb s 0x3c0 v).att_reg i = v &&& 0x3f) ∧
    (i = 0x13 ∨ i = 0x14 → (outb s 0x3c0 v).att_reg i = v &&& 0x0f) ∧
    (∀ j, j ≠ i → (outb s 0x3c0 v).att_reg j = s.att_reg j) ∧
    (outb s 0x3c0 v).att_reg_index = s.att_reg_index ∧
    (outb s 0x3c0 v).att_reg_flip = 0 := by
  have hout : outb s 0x3c0 v =
      { att_store s i v with att_reg_flip := u8 ((att_store s i v).att_reg_flip ^^^ 1) } := by
    simp [outb, vga_ioport_out, out_switch, out_att_data_write, hflip, hidx,
      read8_of_lt hv, u8_and_1f, u8_of_lt (show i < 256 by omega)]
  have hflip2 : (att_store s i v).att_reg_flip = 1 := by
    unfold att_store; split_ifs <;> simp [hflip]
  have hindex : (att_store s i v).att_reg_index = s.att_reg_index := by
    unfold att_store; split_ifs <;> rfl
  have hother : ∀ j, j ≠ i → (att_store s i v).att_reg j = s.att_reg j := by
    intro j hj
    unfold att_store; split_ifs <;> simp [arr_set, hj]
  have hlow : i ≤ 0x0f → (att_store s i v).att_reg i = v &&& 0x3f := by
    intro h
    simp [att_store, VGA_ATT_PALETTEF, h, arr_set, u8_and_3f]
  have h10 : i = 0x10 → (att_store s i v).att_reg i = v &&& 0xef := by
    intro h
    subst h
    simp [att_store, VGA_ATT_PALETTEF, arr_set, u8_and_not_10 hv]
  have h11 : i = 0x11 → (att_store s i v).att_reg i = v := by
    intro h
    subst h
    simp [att_store, VGA_ATT_PALETTEF, arr_set, u8_of_lt hv]
  have h12 : i = 0x12 → (att_store s i v).att_reg i = v &&& 0x3f := by
    intro h
    subst h
    simp [att_store, VGA_ATT_PALETTEF, arr_set, u8_and_not_c0 hv]
  have h1314 : i = 0x13 ∨ i = 0x14 → (att_store s i v).att_reg i = v &&& 0x0f := by
    intro h
    rcases h with h | h <;> subst h <;> simp [att_store, VGA_ATT_PALETTEF, arr_set, u8_and_not_f0 hv]
  have hmask : (att_store s i v).att_reg i = v &&& spec_att_mask i := by
    by_cases c0 : i ≤ 0x0f
    · rw [hlow c0]; simp [spec_att_mask, c0]
    · by_cases c1 : i = 0x10
      · rw [h10 c1]; simp [spec_att_mask, c1]
      · by_cases c2 : i = 0x11
        · rw [h11 c2]; simp [spec_att_mask, c2, and_ff_of_lt hv]
        · by_cases c3 : i = 0x12
          · rw [h12 c3]; simp [spec_att_mask, c3]
          · have c4 : i = 0x13 ∨ i = 0x14 := by omega
            rw [h1314 c4]
            rcases c4 with c4 | c4 <;> simp [spec_att_mask, c4]
  rw [hout]
  refine ⟨hmask, hlow, h10, h11, h12, h1314, hother, hindex, ?_⟩
  simp [hflip2, u8]

theorem att_data_write_masked_witness :
    (await_data_dev.att_reg_flip = 1 ∧ await_data_dev.att_reg_index &&& 0x1f = 0x12 ∧
      0x12 ≤ 0x14 ∧ 0xff < 256) ∧
    (outb await_data_dev 0x3c0 0xff).att_reg 0x12 = 0xff &&& spec_att_mask 0x12 ∧
    (outb await_data_dev 0x3c0 0xff).att_reg 0x12 = 0x3f ∧
    (outb await_data_dev 0x3c0 0xff).att_reg_flip = 0 :=
  have h := att_data_write_masked await_data_dev 0x12 0xff (by decide) (by decide)
    (by decide) (by decide)
  ⟨by decide, h.1, h.2.2.2.2.1 rfl, h.2.2.2.2.2.2.2.2⟩

/-- C7: for every device state, whatever its flip-flop, an IN from the
status-1 port 0x3BA or 0x3DA leaves the Attribute flip-flop at 0 and changes
no other member of the device; the next OUT of a byte `v` to port 0x3C0 is
then an index write: `att_reg_index` becomes `v & 0x3F`, no `att_reg` slot
changes, and nothing else changes either. -/
theorem status1_read_resets_latch (s : vga_device) (p v : Nat)
    (hp : p = 0x3ba ∨ p = 0x3da) (hv : v < 256) :
    (after_inb s p).att_reg_flip = 0 ∧
    after_inb s p = { s with att_reg_flip := 0 } ∧
    (outb (after_inb s p) 0x3c0 v).att_reg_index = v &&& 0x3f ∧
    (outb (after_inb s p) 0x3c0 v).att_reg = s.att_reg ∧
    outb (after_inb s p) 0x3c0 v =
      { s with att_reg_flip := 0, att_reg_index := v &&& 0x3f } := by
  have hin : after_inb s p = { s with att_reg_flip := 0 } := by
    rcases hp with h | h <;> subst h <;>
      simp [after_inb, vga_ioport_in, in_switch, in_misc_input_status1, in_default]
  have hout : outb (after_inb s p) 0x3c0 v =
      { s with att_reg_flip := 0, att_reg_index := v &&& 0x3f } := by
    rw [hin]
    simp [outb, vga_ioport_out, out_switch, out_att_data_write, read8_of_lt hv, u8_and_3f]
  refine ⟨?_, hin, ?_, ?_, hout⟩
  · rw [hin]
  · rw [hout]
  · rw [hout]

theorem status1_read_resets_latch_witness :
    ((0x3da = 0x3ba ∨ 0x3da = 0x3da) ∧ 0xc5 < 256) ∧
    latched_dev.att_reg_flip = 1 ∧
    (after_inb latched_dev 0x3da).att_reg_flip = 0 ∧
    (outb (after_inb latched_dev 0x3da) 0x3c0 0xc5).att_reg_index = 0x05 ∧
    (outb (after_inb latched_dev 0x3da) 0x3c0 0xc5).att_reg 7 = 0x2a :=
  have h := status1_read_resets_latch latched_dev 0x3da 0xc5 (by decide) (by decide)
  ⟨by decide, by decide, h.1, h.2.2.1, by rw [h.2.2.2.1]; decide⟩

/-! ## Miscellaneous read ports: the missing `break`s -/

/-- C8 (evaluation at the failing inputs): from the attach-time device,
after OUT(0x3C2, 0xFF) the Misc output register holds 0xEF, yet IN(0x3CC)
delivers 0; after OUT(0x3BA, 0x5A) the feature register holds 0x5A, yet
IN(0x3CA) delivers 0.  The cases `VGA_MISC_OUTPUT_READ`,
`VGA_MISC_FEATURE_READ` and `VGA_MISC_INPUT_STATUS1_*` of `vga_ioport_in`
have no `break`, so control reaches `default: val = 0`. -/
theorem misc_reads_deliver_zero :
    (outb vga 0x3c2 0xff).misc_output = 0xef ∧
    inb (outb vga 0x3c2 0xff) 0x3cc = 0 ∧
    (outb vga 0x3ba 0x5a).misc_feature = 0x5a ∧
    inb (outb vga 0x3ba 0x5a) 0x3ca = 0 := by
  decide

/-! ## DAC palette -/

theorem outb_dac_write_index (s : vga_device) (w : Nat) (hw : w < 256) :
    outb s 0x3c8 w = { s with dac_write_index := w, dac_sub_index := 0, dac_state := 0 } := by
  simp [outb, vga_ioport_out, out_switch, read8_of_lt hw, u8_of_lt hw]

theorem outb_dac_read_index (s : vga_device) (w : Nat) (hw : w < 256) :
    outb s 0x3c7 w = { s with dac_read_index := w, dac_sub_index := 0, dac_state := 3 } := by
  simp [outb, vga_ioport_out, out_switch, read8_of_lt hw, u8_of_lt hw]

theorem outb_dac_data_pending (s : vga_device) (v : Nat) (hv : v < 256)
    (hsub : s.dac_sub_index = 0 ∨ s.dac_sub_index = 1) :
    outb s 0x3c9 v =
      { s with
        dac_sub_reg := arr_set s.dac_sub_reg s.dac_sub_index (v &&& 0x3f)
        dac_sub_index := s.dac_sub_index + 1 } := by
  rcases hsub with h | h <;>
    simp [outb, vga_ioport_out, out_switch, out_dac_data, read8_of_lt hv, u8_and_3f, h,
      u8_succ_small]

theorem outb_dac_data_commit (s : vga_device) (v : Nat) (hv : v < 256)
    (hsub : s.dac_sub_index = 2) :
    outb s 0x3c9 v =
      { s with
        dac_sub_reg := arr_set s.dac_sub_reg 2 (v &&& 0x3f)
        dac_palette := memcpy s.dac_palette (s.dac_write_index * 3)
          (arr_set s.dac_sub_reg 2 (v &&& 0x3f)) 3
        dac_sub_index := 0
        dac_write_index := u8 (s.dac_write_index + 1) } := by
  simp [outb, vga_ioport_out, out_switch, out_dac_data, read8_of_lt hv, u8_and_3f, hsub,
    u8_succ_small]

/-- The device after three consecutive data-port writes that start with
`dac_sub_index = 0`. -/
theorem outb_dac_triplet (s : vga_device) (r g b : Nat)
    (hr : r < 256) (hg : g < 256) (hb : b < 256) (hsub : s.dac_sub_index = 0) :
    outb (outb (outb s 0x3c9 r) 0x3c9 g) 0x3c9 b =
      { s with
        dac_sub_reg :=
          arr_set (arr_set (arr_set s.dac_sub_reg 0 (r &&& 0x3f)) 1 (g &&& 0x3f)) 2 (b &&& 0x3f)
        dac_palette := memcpy s.dac_palette (s.dac_write_index * 3)
          (arr_set (arr_set (arr_set s.dac_sub_reg 0 (r &&& 0x3f)) 1 (g &&& 0x3f)) 2
            (b &&& 0x3f)) 3
        dac_sub_index := 0
        dac_write_index := u8 (s.dac_write_index + 1) } := by
  rw [outb_dac_data_pending s r hr (Or.inl hsub)]
  rw [outb_dac_data_pending _ g hg (Or.inr (by simp [hsub]))]
  rw [outb_dac_data_commit _ b hb (by simp [hsub])]
  simp [hsub]

theorem inb_dac_data (s : vga_device) :
    inb s 0x3c9 = s.dac_palette (s.dac_read_index * 3 + s.dac_sub_index) := by
  simp [inb, vga_ioport_in, in_switch, ioport__write8]
  unfold in_dac_data
  dsimp only
  split_ifs <;> rfl

theorem after_inb_dac_data_pending (s : vga_device)
    (hsub : s.dac_sub_index = 0 ∨ s.dac_sub_index = 1) :
    after_inb s 0x3c9 = { s with dac_sub_index := s.dac_sub_index + 1 } := by
  rcases hsub with h | h <;>
    simp [after_inb, vga_ioport_in, in_switch, in_dac_data, h, u8_succ_small]

/-- C9: for every device state and all bytes `w`, `r`, `g`, `b`, after
OUT(0x3C8, `w`), three OUTs of `r`, `g`, `b` to the data port 0x3C9 and
OUT(0x3C7, `w`), the write index is `w + 1` modulo 256 and the next three INs
from 0x3C9 deliver `r & 0x3F`, `g & 0x3F` and `b & 0x3F` in that order; `w`
ranges over all bytes, 255 included. -/
theorem dac_triplet_round_trip (s : vga_device) (w r g b : Nat)
    (hw : w < 256) (hr : r < 256) (hg : g < 256) (hb : b < 256) :
    (outb (outb (outb (outb (outb s 0x3c8 w) 0x3c9 r) 0x3c9 g) 0x3c9 b) 0x3c7 w).dac_write_index
      = (w + 1) % 256 ∧
    inb (outb (outb (outb (outb (outb s 0x3c8 w) 0x3c9 r) 0x3c9 g) 0x3c9 b) 0x3c7 w) 0x3c9
      = r &&& 0x3f ∧
    inb (after_inb
        (outb (outb (outb (outb (outb s 0x3c8 w) 0x3c9 r) 0x3c9 g) 0x3c9 b) 0x3c7 w) 0x3c9)
      0x3c9 = g &&& 0x3f ∧
    inb (after_inb (after_inb
        (outb (outb (outb (outb (outb s 0x3c8 w) 0x3c9 r) 0x3c9 g) 0x3c9 b) 0x3c7 w) 0x3c9)
      0x3c9) 0x3c9 = b &&& 0x3f := by
  rw [outb_dac_write_index s w hw, outb_dac_triplet _ r g b hr hg hb rfl,
    outb_dac_read_index _ w hw]
  rw [after_inb_dac_data_pending _ (Or.inl rfl), after_inb_dac_data_pending _ (Or.inr rfl)]
  simp only [inb_dac_data]
  refine ⟨rfl, ?_, ?_, ?_⟩ <;> simp [memcpy, arr_set]

theorem dac_triplet_round_trip_witness :
    (255 < 256 ∧ 0xff < 256 ∧ 0x80 < 256 ∧ 0x15 < 256) ∧
    inb (outb (outb (outb (outb (outb vga 0x3c8 255) 0x3c9 0xff) 0x3c9 0x80) 0x3c9 0x15)
      0x3c7 255) 0x3c9 = 0x3f ∧
    inb (after_inb
        (outb (outb (outb (outb (outb vga 0x3c8 255) 0x3c9 0xff) 0x3c9 0x80) 0x3c9 0x15)
          0x3c7 255) 0x3c9)
      0x3c9 = 0x00 ∧
    inb (after_inb (after_inb
        (outb (outb (outb (outb (outb vga 0x3c8 255) 0x3c9 0xff) 0x3c9 0x80) 0x3c9 0x15)
          0x3c7 255) 0x3c9)
      0x3c9) 0x3c9 = 0x15 :=
  have h := dac_triplet_round_trip vga 255 0xff 0x80 0x15 (by decide) (by decide)
    (by decide) (by decide)
  ⟨by decide, h.2.1, h.2.2.1, h.2.2.2⟩

/-- C10: for every device state with `dac_sub_index = 0` and all bytes
`r`, `g`, `b`, `x`: one or two OUTs to the DAC data port 0x3C9 followed by an
OUT of `x` to the read-index port 0x3C7 or the write-index port 0x3C8 leave
every byte of `dac_palette` as it was and `dac_sub_index` at 0; the first and
the second data write alone do not touch the palette; the third consecutive
data write stores `r & 0x3F`, `g & 0x3F`, `b & 0x3F` in the three bytes of
`palette[write_index]`, leaves every other palette byte as it was, and makes
the write index `write_index + 1` modulo 256. -/
theorem dac_partial_triplet_discarded (s : vga_device) (r g b x p : Nat)
    (hr : r < 256) (hg : g < 256) (hb : b < 256) (hx : x < 256)
    (hsub : s.dac_sub_index = 0) (hp : p = 0x3c7 ∨ p = 0x3c8) :
    ((outb (outb s 0x3c9 r) p x).dac_palette = s.dac_palette ∧
      (outb (outb s 0x3c9 r) p x).dac_sub_index = 0) ∧
    ((outb (outb (outb s 0x3c9 r) 0x3c9 g) p x).dac_palette = s.dac_palette ∧
      (outb (outb (outb s 0x3c9 r) 0x3c9 g) p x).dac_sub_index = 0) ∧
    (outb s 0x3c9 r).dac_palette = s.dac_palette ∧
    (outb (outb s 0x3c9 r) 0x3c9 g).dac_palette = s.dac_palette ∧
    (outb (outb (outb s 0x3c9 r) 0x3c9 g) 0x3c9 b).dac_palette (s.dac_write_index * 3)
      = r &&& 0x3f ∧
    (outb (outb (outb s 0x3c9 r) 0x3c9 g) 0x3c9 b).dac_palette (s.dac_write_index * 3 + 1)
      = g &&& 0x3f ∧
    (outb (outb (outb s 0x3c9 r) 0x3c9 g) 0x3c9 b).dac_palette (s.dac_write_index * 3 + 2)
      = b &&& 0x3f ∧
    (∀ j, j < s.dac_write_index * 3 ∨ s.dac_write_index * 3 + 3 ≤ j →
      (outb (outb (outb s 0x3c9 r) 0x3c9 g) 0x3c9 b).dac_palette j = s.dac_palette j) ∧
    (outb (outb (outb s 0x3c9 r) 0x3c9 g) 0x3c9 b).dac_write_index
      = (s.dac_write_index + 1) % 256 := by
  have h1 := outb_dac_data_pending s r hr (Or.inl hsub)
  have hs1 : (outb s 0x3c9 r).dac_sub_index = 1 := by rw [h1]; simp [hsub]
  have hp1 : (outb s 0x3c9 r).dac_palette = s.dac_palette := by rw [h1]
  have h2 := outb_dac_data_pending (outb s 0x3c9 r) g hg (Or.inr hs1)
  have hp2 : (outb (outb s 0x3c9 r) 0x3c9 g).dac_palette = s.dac_palette := by
    rw [h2]; exact hp1
  have h3 := outb_dac_triplet s r g b hr hg hb hsub
  have hidx : ∀ t : vga_device,
      (outb t p x).dac_palette = t.dac_palette ∧ (outb t p x).dac_sub_index = 0 := by
    intro t
    rcases hp with h | h <;> subst h
    · rw [outb_dac_read_index _ x hx]; exact ⟨rfl, rfl⟩
    · rw [outb_dac_write_index _ x hx]; exact ⟨rfl, rfl⟩
  refine ⟨?_, ?_, hp1, hp2, ?_, ?_, ?_, ?_, ?_⟩
  · exact ⟨(hidx _).1.trans hp1, (hidx _).2⟩
  · exact ⟨(hidx _).1.trans hp2, (hidx _).2⟩
  · rw [h3]; simp [memcpy, arr_set]
  · rw [h3]; simp [memcpy, arr_set]
  · rw [h3]; simp [memcpy, arr_set]
  · intro j hj
    rw [h3]
    have hnot : ¬ (s.dac_write_index * 3 ≤ j ∧ j < s.dac_write_index * 3 + 3) := by omega
    simp [memcpy, hnot]
  · rw [h3]; rfl

theorem dac_partial_triplet_discarded_witness :
    (0x3f < 256 ∧ 0x2a < 256 ∧ 0x15 < 256 ∧ 0x09 < 256 ∧ vga.dac_sub_index = 0 ∧
      (0x3c7 = 0x3c7 ∨ 0x3c7 = 0x3c8)) ∧
    (outb (outb (outb vga 0x3c9 0x3f) 0x3c9 0x2a) 0x3c7 0x09).dac_palette = vga.dac_palette ∧
    (outb (outb (outb vga 0x3c9 0x3f) 0x3c9 0x2a) 0x3c9 0x15).dac_palette 1 = 0x2a ∧
    (outb (outb (outb vga 0x3c9 0x3f) 0x3c9 0x2a) 0x3c9 0x15).dac_write_index = 1 :=
  have h := dac_partial_triplet_discarded vga 0x3f 0x2a 0x15 0x09 0x3c7 (by decide)
    (by decide) (by decide) (by decide) rfl (by decide)
  ⟨by decide, h.2.1.1, h.2.2.2.2.2.1, h.2.2.2.2.2.2.2.2⟩

/-! ## Ports outside the table -/

/-- C12: for every device state and every port number that is not in the
specification's I/O table, an IN delivers the byte 0 and leaves the device
unchanged, an OUT of any value leaves the device unchanged, and both handlers
return true; moreover both handlers return true for every port `q`.  The
byte 0 is the one that `default: val = 0` assigns: the switch of
`vga_ioport_in` leaves `val` at 0 whatever the uninitialised local held on
entry. -/
theorem unmapped_ports_ignored (s : vga_device) (port data q : Nat)
    (h : port ∉ spec_ports) :
    inb s port = 0 ∧ after_inb s port = s ∧ outb s port data = s ∧
    (vga_ioport_in s port).ret = true ∧ (vga_ioport_out s port data).ret = true ∧
    (vga_ioport_in s q).ret = true ∧ (vga_ioport_out s q data).ret = true ∧
    (∀ val0, (in_switch s port val0).2 = 0) ∧
    (∀ val0, (in_switch s port val0).1 = s) := by
  simp only [spec_ports, List.mem_cons, List.mem_singleton, not_or, List.not_mem_nil,
    or_false] at h
  obtain ⟨h1, h2, h3, h4, h5, h6, h7, h8, h9, h10, h11, h12, h13, h14, h15, h16, h17, h18,
    h19⟩ := h
  have hsw : ∀ val0, in_switch s port val0 = in_default s val0 := by
    intro val0
    simp [in_switch, h1, h2, h3, h4, h5, h6, h7, h8, h9, h10, h11, h12, h13, h14, h15, h16,
      h17, h18]
  refine ⟨?_, ?_, ?_, rfl, rfl, rfl, rfl, ?_, ?_⟩
  · simp [inb, vga_ioport_in, hsw, in_default, ioport__write8]
  · simp [after_inb, vga_ioport_in, hsw, in_default]
  · simp [outb, vga_ioport_out, out_switch, out_default, h1, h2, h3, h4, h5, h6,
      h7, h8, h9, h10, h11, h12, h13, h14, h15, h16, h17, h18, h19]
  · intro val0
    rw [hsw val0]
    rfl
  · intro val0
    rw [hsw val0]
    rfl

theorem unmapped_ports_ignored_witness :
    (0x3c6 ∉ spec_ports) ∧
    (inb latched_dev 0x3c6 = 0 ∧ after_inb latched_dev 0x3c6 = latched_dev ∧
      outb latched_dev 0x3c6 0xff = latched_dev ∧
      (vga_ioport_in latched_dev 0x3c6).ret = true ∧
      (vga_ioport_out latched_dev 0x3c6 0xff).ret = true ∧
      (vga_ioport_in latched_dev 0x3c9).ret = true ∧
      (vga_ioport_out latched_dev 0x3c9 0xff).ret = true) ∧
    (in_switch latched_dev 0x3c6 0x77).2 = 0 ∧
    (in_switch latched_dev 0x3c6 0x77).1 = latched_dev :=
  have h := unmapped_ports_ignored latched_dev 0x3c6 0xff 0x3c9 (by decide)
  ⟨by decide, ⟨h.1, h.2.1, h.2.2.1, h.2.2.2.1, h.2.2.2.2.1, h.2.2.2.2.2.1,
    h.2.2.2.2.2.2.1⟩, h.2.2.2.2.2.2.2.1 0x77, h.2.2.2.2.2.2.2.2 0x77⟩

/-! ## MMIO write decode -/

/-- C13 (evaluation at the failing inputs): in chain-4 mode with the window
at 0xA0000, a one-byte write of 0xAA at rebased offset 0 with map mask 0b0001
(plane 0, its bit set) is dropped, a write at offset 2 with map mask 0b0100
(plane 2, its bit set) is dropped, and a write at offset 2 with map mask
0b0001 (plane 2, its bit clear) is applied: the gate is `1 < plane`, a
comparison, where a shift `1 << plane` selects the plane's bit. -/
theorem chain4_gate_ignores_plane_bit :
    (chain4_dev 0x01).seq_reg VGA_SEQ_MEMORY_MODE &&& 0x08 = 0x08 ∧
    (chain4_dev 0x01).seq_reg VGA_SEQ_MAP_MASK = 0x01 ∧
    (mmio_write_byte (chain4_dev 0x01) 0xA0000 0xAA).plane 0 = 0 ∧
    (chain4_dev 0x04).seq_reg VGA_SEQ_MAP_MASK = 0x04 ∧
    (mmio_write_byte (chain4_dev 0x04) 0xA0002 0xAA).plane 2 = 0 ∧
    (mmio_write_byte (chain4_dev 0x01) 0xA0002 0xAA).plane 2 = 0xAA := by
  decide

theorem and_two_cases (x : Nat) : x &&& 2 = 0 ∨ x &&& 2 = 2 := by
  have h1 : x &&& 2 ≤ 2 := Nat.and_le_right
  have h2 : (x &&& 2) % 2 = 0 := by
    rw [← Nat.and_one_is_mod, Nat.and_assoc, show (2 &&& 1 : Nat) = 0 by decide,
      Nat.and_zero]
  omega

theorem odd_even_plane_eq (rms a : Nat) :
    odd_even_plane rms a = (rms &&& 0x02) ||| (a &&& 0x01) := by
  have h1 : rms &&& 0x02 < 2 ^ 8 := Nat.lt_of_le_of_lt Nat.and_le_right (by decide)
  have h2 : a &&& 0x01 < 2 ^ 8 := Nat.lt_of_le_of_lt Nat.and_le_right (by decide)
  exact Nat.mod_eq_of_lt (Nat.or_lt_two_pow h1 h2)

/-- C14: the plane the odd/even branch computes for read-map-select `rms` and
rebased offset `a` is `(rms & 0x02) | (a & 0x01)`; with bit 1 of `rms` set it
is 2 for every even and 3 for every odd offset, with that bit clear it is 0
or 1.  When chain-4 is clear and the odd/even bit of the Graphics mode
register is set, this is the plane the write handler passes to its gate. -/
theorem odd_even_plane_selection (rms a : Nat) :
    odd_even_plane rms a = (rms &&& 0x02) ||| (a &&& 0x01) ∧
    (rms &&& 0x02 ≠ 0 → a % 2 = 0 → odd_even_plane rms a = 2) ∧
    (rms &&& 0x02 ≠ 0 → a % 2 = 1 → odd_even_plane rms a = 3) ∧
    (rms &&& 0x02 = 0 → odd_even_plane rms a = 0 ∨ odd_even_plane rms a = 1) ∧
    (∀ (s : vga_device) (addr : Nat) (data : Nat → Nat) (len : Nat),
      s.seq_reg VGA_SEQ_MEMORY_MODE &&& 0x08 = 0 →
      s.gfx_reg VGA_GFX_GRAPHIC_MODE &&& 0x10 ≠ 0 →
      s.gfx_reg VGA_GFX_READ_MAP_SELECT = rms →
      mmio_rebase (u8 (s.gfx_reg VGA_GFX_MISC &&& VGA_GFX_MISC_MM)) addr = a →
      vga_mmio_callback_write s addr data len =
        if u8 (s.seq_reg VGA_SEQ_MAP_MASK &&& 0x0f) &&&
            mmio_mask ((rms &&& 0x02) ||| (a &&& 0x01)) ≠ 0 then
          { s with plane := memcpy s.plane a data len }
        else s) := by
  have hmod : a &&& 0x01 = a % 2 := Nat.and_one_is_mod a
  refine ⟨odd_even_plane_eq rms a, ?_, ?_, ?_, ?_⟩
  · intro h0 he
    rcases and_two_cases rms with h | h
    · exact absurd h h0
    · rw [odd_even_plane_eq, hmod, h, he]; decide
  · intro h0 ho
    rcases and_two_cases rms with h | h
    · exact absurd h h0
    · rw [odd_even_plane_eq, hmod, h, ho]; decide
  · intro h0
    rw [odd_even_plane_eq, hmod, h0]
    rcases Nat.mod_two_eq_zero_or_one a with h | h
    · left; rw [h]; decide
    · right; rw [h]; decide
  · intro s addr data len hc4 hoe hrms hreb
    rw [← odd_even_plane_eq]
    simp only [vga_mmio_callback_write, hc4, hrms, hreb]
    simp [hoe]

theorem odd_even_plane_selection_witness :
    (0x06 &&& 0x02 ≠ 0 ∧ 4 % 2 = 0 ∧ 5 % 2 = 1 ∧ 0x05 &&& 0x02 = 0) ∧
    odd_even_plane 0x06 4 = 2 ∧ odd_even_plane 0x06 5 = 3 ∧
    (odd_even_plane 0x05 5 = 0 ∨ odd_even_plane 0x05 5 = 1) :=
  ⟨by decide, (odd_even_plane_selection 0x06 4).2.1 (by decide) (by decide),
    (odd_even_plane_selection 0x06 5).2.2.1 (by decide) (by decide),
    (odd_even_plane_selection 0x05 5).2.2.2.1 (by decide)⟩

/-- C15 (evaluation at the failing inputs): with chain-4 set and map mask
0b0001, a one-byte write of 0xAA at guest address 0xB0002 under window field
10 (Graphics register 6 = 0x08) is stored at position 0xB0002 of the plane
buffer and position 2 stays 0; likewise at 0xB8002 under field 11 (register
6 = 0x0C) and at 0xA0002 under field 01 (register 6 = 0x04).  The switch
compares the masked value 0, 4, 8 or 12 with the labels 0, 1, 2, 3, so only
field 00 is rebased. -/
theorem window_rebase_not_applied :
    (window_dev 0x01 0x08).gfx_reg VGA_GFX_MISC &&& VGA_GFX_MISC_MM = 0x08 ∧
    (mmio_write_byte (window_dev 0x01 0x08) 0xB0002 0xAA).plane 0xB0002 = 0xAA ∧
    (mmio_write_byte (window_dev 0x01 0x08) 0xB0002 0xAA).plane 2 = 0 ∧
    (mmio_write_byte (window_dev 0x01 0x0c) 0xB8002 0xAA).plane 0xB8002 = 0xAA ∧
    (mmio_write_byte (window_dev 0x01 0x0c) 0xB8002 0xAA).plane 2 = 0 ∧
    (mmio_write_byte (window_dev 0x01 0x04) 0xA0002 0xAA).plane 0xA0002 = 0xAA ∧
    (mmio_write_byte (window_dev 0x01 0x04) 0xA0002 0xAA).plane 2 = 0 ∧
    (mmio_write_byte (window_dev 0x01 0x00) 0xA0002 0xAA).plane 2 = 0xAA := by
  decide

theorem write_planar_branch (s : vga_device) (addr : Nat) (data : Nat → Nat) (len : Nat)
    (hc4 : s.seq_reg VGA_SEQ_MEMORY_MODE &&& 0x08 = 0)
    (hoe : s.gfx_reg VGA_GFX_GRAPHIC_MODE &&& 0x10 = 0) :
    vga_mmio_callback_write s addr data len = s := by
  simp [vga_mmio_callback_write, hc4, hoe]

/-- C16 (counterexample): after the port writes of the end-to-end scenario
(map mask 0x0F, graphics mode 0, memory mode 0) the one-byte MMIO write of
0xAA at guest address 0xA0100 leaves no byte of plane memory equal to 0xAA. -/
theorem planar_scenario_stores_nothing :
    (planar_dev.seq_reg VGA_SEQ_MAP_MASK = 0x0f ∧
      planar_dev.gfx_reg VGA_GFX_GRAPHIC_MODE = 0x00 ∧
      planar_dev.seq_reg VGA_SEQ_MEMORY_MODE = 0x00) ∧
    ¬ ∃ j, (mmio_write_byte planar_dev 0xA0100 0xAA).plane j = 0xAA := by
  refine ⟨by decide, ?_⟩
  rintro ⟨j, hj⟩
  have hw : mmio_write_byte planar_dev 0xA0100 0xAA = planar_dev := by
    have h := write_planar_branch planar_dev 0xA0100 (fun _ => 0xAA) 1 (by decide) (by decide)
    simp [mmio_write_byte, vga_mmio_callback, h]
  have hp : planar_dev.plane = fun _ => 0 := rfl
  rw [hw, hp] at hj
  simp at hj

/-- C16 (amended): in planar mode, that is with chain-4 clear and the
odd/even bit of the Graphics mode register clear, an MMIO write of any bytes
at any address leaves the device unchanged, plane memory included, whatever
the write mode and the map mask; in particular so does the write of the
end-to-end scenario. -/
theorem planar_write_ignored (s : vga_device) (addr : Nat) (data : Nat → Nat) (len : Nat)
    (hc4 : s.seq_reg VGA_SEQ_MEMORY_MODE &&& 0x08 = 0)
    (hoe : s.gfx_reg VGA_GFX_GRAPHIC_MODE &&& 0x10 = 0) :
    vga_mmio_callback_write s addr data len = s ∧
    (vga_mmio_callback s addr data len 1).1 = s := by
  have h := write_planar_branch s addr data len hc4 hoe
  exact ⟨h, by simp [vga_mmio_callback, h]⟩

theorem planar_write_ignored_witness :
    (planar_dev.seq_reg VGA_SEQ_MEMORY_MODE &&& 0x08 = 0 ∧
      planar_dev.gfx_reg VGA_GFX_GRAPHIC_MODE &&& 0x10 = 0) ∧
    vga_mmio_callback_write planar_dev 0xA0100 (fun _ => 0xAA) 1 = planar_dev ∧
    (vga_mmio_callback planar_dev 0xA0100 (fun _ => 0xAA) 1 1).1 = planar_dev :=
  ⟨by decide, planar_write_ignored planar_dev 0xA0100 (fun _ => 0xAA) 1 (by decide)
    (by decide)⟩

/-- C17 (counterexample): in chain-4 mode with map mask 0b0101 the one-byte
write of 0xAA at guest address 0xA0006 is committed (position 6 of plane
memory holds 0xAA), yet an MMIO read of one byte at 0xA0006 into a zeroed
buffer leaves the buffer's byte at 0. -/
theorem mmio_read_delivers_nothing :
    (mmio_write_byte (chain4_dev 0x05) 0xA0006 0xAA).plane 6 = 0xAA ∧
    mmio_read_byte (mmio_write_byte (chain4_dev 0x05) 0xA0006 0xAA) 0xA0006 (fun _ => 0) 1
      = 0 ∧
    mmio_read_byte (mmio_write_byte (chain4_dev 0x05) 0xA0006 0xAA) 0xA0006 (fun _ => 0) 1
      ≠ 0xAA := by
  decide

/-- C17 (amended): for every device state, address, buffer and length, an
MMIO read changes neither the device nor the caller's buffer; the caller
keeps the bytes the buffer held before the call, whatever plane memory
holds. -/
theorem mmio_read_is_noop (s : vga_device) (addr : Nat) (data : Nat → Nat) (len : Nat) :
    vga_mmio_callback s addr data len 0 = (s, data) ∧
    mmio_read_byte s addr data len = data 0 := by
  constructor <;> simp [mmio_read_byte, vga_mmio_callback, vga_mmio_callback_read]

/-! ## The gate and the bounds of the code as it stands -/

theorem gate_iff (x p : Nat) :
    u8 (x &&& 0x0f) &&& mmio_mask p ≠ 0 ↔ 1 < p ∧ x &&& 1 ≠ 0 := by
  have hb : u8 (x &&& 0x0f) = x &&& 0x0f :=
    Nat.mod_eq_of_lt (Nat.lt_of_le_of_lt Nat.and_le_right (by decide))
  by_cases hp : 1 < p
  · simp only [mmio_mask, hp, if_true, true_and, hb]
    rw [Nat.and_assoc, show (0x0f &&& 1 : Nat) = 1 by decide]
  · simp [mmio_mask, hp]

theorem chain4_plane_lt (a : Nat) : chain4_plane a < 4 := by
  have h : a &&& 0x03 ≤ 3 := Nat.and_le_right
  have h2 : u8 (a &&& 0x03) = a &&& 0x03 := Nat.mod_eq_of_lt (by omega)
  unfold chain4_plane
  omega

theorem odd_even_plane_lt (rms a : Nat) : odd_even_plane rms a < 4 := by
  rw [odd_even_plane_eq]
  have h1 : rms &&& 0x02 < 2 ^ 2 := Nat.lt_of_le_of_lt Nat.and_le_right (by decide)
  have h2 : a &&& 0x01 < 2 ^ 2 := Nat.lt_of_le_of_lt Nat.and_le_right (by decide)
  exact Nat.or_lt_two_pow h1 h2

theorem selected_plane_lt (s : vga_device) (addr : Nat) : selected_plane s addr < 4 := by
  unfold selected_plane
  split_ifs
  · exact chain4_plane_lt _
  · exact odd_even_plane_lt _ _

/-- The write handler outside planar mode: it copies the buffer to the
rebased address when its gate passes and does nothing otherwise. -/
theorem write_gated_branch (s : vga_device) (addr : Nat) (data : Nat → Nat) (len : Nat)
    (hmode : s.seq_reg VGA_SEQ_MEMORY_MODE &&& 0x08 ≠ 0 ∨
      s.gfx_reg VGA_GFX_GRAPHIC_MODE &&& 0x10 ≠ 0) :
    vga_mmio_callback_write s addr data len =
      if 1 < selected_plane s addr ∧ s.seq_reg VGA_SEQ_MAP_MASK &&& 1 ≠ 0 then
        { s with plane := memcpy s.plane (rebased_addr s addr) data len }
      else s := by
  by_cases hc4 : s.seq_reg VGA_SEQ_MEMORY_MODE &&& 0x08 = 0
  · have hoe : s.gfx_reg VGA_GFX_GRAPHIC_MODE &&& 0x10 ≠ 0 := by
      rcases hmode with h | h
      · exact absurd hc4 h
      · exact h
    simp only [vga_mmio_callback_write, selected_plane, rebased_addr, hc4, gate_iff]
    simp [hoe]
  · simp only [vga_mmio_callback_write, selected_plane, rebased_addr, gate_iff]
    simp [hc4]

/-- C19: in chain-4 mode and in odd/even mode, for every device state,
address and buffer, the MMIO write handler copies the buffer into plane
memory at the rebased address exactly when the selected plane is 2 or 3 and
bit 0 of the map mask is set, and otherwise leaves the device as it is.  So a
write whose selected plane is 0 or 1 never modifies plane memory, and
replacing the map mask by any value with the same bit 0 gives the same plane
memory. -/
theorem mmio_gate_as_coded (s : vga_device) (addr : Nat) (data : Nat → Nat) (len m : Nat)
    (hmode : s.seq_reg VGA_SEQ_MEMORY_MODE &&& 0x08 ≠ 0 ∨
      s.gfx_reg VGA_GFX_GRAPHIC_MODE &&& 0x10 ≠ 0) :
    (vga_mmio_callback_write s addr data len =
      if (selected_plane s addr = 2 ∨ selected_plane s addr = 3) ∧
          s.seq_reg VGA_SEQ_MAP_MASK &&& 1 ≠ 0 then
        { s with plane := memcpy s.plane (rebased_addr s addr) data len }
      else s) ∧
    ((selected_plane s addr = 2 ∨ selected_plane s addr = 3) ∧
        s.seq_reg VGA_SEQ_MAP_MASK &&& 1 ≠ 0 →
      ∀ k, k < len →
        (vga_mmio_callback_write s addr data len).plane (rebased_addr s addr + k) = data k) ∧
    (selected_plane s addr = 0 ∨ selected_plane s addr = 1 →
      vga_mmio_callback_write s addr data len = s) ∧
    (s.seq_reg VGA_SEQ_MAP_MASK &&& 1 = 0 →
      vga_mmio_callback_write s addr data len = s) ∧
    (m &&& 1 = s.seq_reg VGA_SEQ_MAP_MASK &&& 1 →
      (vga_mmio_callback_write
          { s with seq_reg := arr_set s.seq_reg VGA_SEQ_MAP_MASK m } addr data len).plane
        = (vga_mmio_callback_write s addr data len).plane) := by
  have hlt := selected_plane_lt s addr
  have hiff : (selected_plane s addr = 2 ∨ selected_plane s addr = 3) ↔
      1 < selected_plane s addr := by omega
  have hw0 := write_gated_branch s addr data len hmode
  have hw : vga_mmio_callback_write s addr data len =
      if (selected_plane s addr = 2 ∨ selected_plane s addr = 3) ∧
          s.seq_reg VGA_SEQ_MAP_MASK &&& 1 ≠ 0 then
        { s with plane := memcpy s.plane (rebased_addr s addr) data len }
      else s := by
    rw [hw0]
    exact if_congr (and_congr_left' hiff.symm) rfl rfl
  refine ⟨hw, ?_, ?_, ?_, ?_⟩
  · intro hc k hk
    rw [hw, if_pos hc]
    simp [memcpy, hk]
  · intro hp
    rw [hw, if_neg]
    intro hc
    omega
  · intro hb
    rw [hw, if_neg]
    intro hc
    exact hc.2 hb
  · intro hm
    have hmode2 : ({ s with seq_reg := arr_set s.seq_reg VGA_SEQ_MAP_MASK m } :
          vga_device).seq_reg VGA_SEQ_MEMORY_MODE &&& 0x08 ≠ 0 ∨
        ({ s with seq_reg := arr_set s.seq_reg VGA_SEQ_MAP_MASK m } :
          vga_device).gfx_reg VGA_GFX_GRAPHIC_MODE &&& 0x10 ≠ 0 := by
      simpa [arr_set] using hmode
    have hw2 := write_gated_branch
      { s with seq_reg := arr_set s.seq_reg VGA_SEQ_MAP_MASK m } addr data len hmode2
    have hsel : selected_plane { s with seq_reg := arr_set s.seq_reg VGA_SEQ_MAP_MASK m } addr
        = selected_plane s addr := by
      simp [selected_plane, rebased_addr, arr_set]
    have hreb : rebased_addr { s with seq_reg := arr_set s.seq_reg VGA_SEQ_MAP_MASK m } addr
        = rebased_addr s addr := rfl
    have hmask : ({ s with seq_reg := arr_set s.seq_reg VGA_SEQ_MAP_MASK m } :
        vga_device).seq_reg VGA_SEQ_MAP_MASK = m := by
      simp [arr_set]
    by_cases hc : 1 < selected_plane s addr ∧ s.seq_reg VGA_SEQ_MAP_MASK &&& 1 ≠ 0
    · have hc2 : 1 < selected_plane { s with seq_reg := arr_set s.seq_reg VGA_SEQ_MAP_MASK m }
          addr ∧ ({ s with seq_reg := arr_set s.seq_reg VGA_SEQ_MAP_MASK m } :
            vga_device).seq_reg VGA_SEQ_MAP_MASK &&& 1 ≠ 0 := by
        rw [hsel, hmask, hm]; exact hc
      rw [hw2, if_pos hc2, hw0, if_pos hc, hreb]
    · have hc2 : ¬ (1 < selected_plane
          { s with seq_reg := arr_set s.seq_reg VGA_SEQ_MAP_MASK m } addr ∧
          ({ s with seq_reg := arr_set s.seq_reg VGA_SEQ_MAP_MASK m } :
            vga_device).seq_reg VGA_SEQ_MAP_MASK &&& 1 ≠ 0) := by
        rw [hsel, hmask, hm]; exact hc
      rw [hw2, if_neg hc2, hw0, if_neg hc]

theorem mmio_gate_as_coded_witness :
    ((chain4_dev 0x0e).seq_reg VGA_SEQ_MEMORY_MODE &&& 0x08 ≠ 0 ∨
      (chain4_dev 0x0e).gfx_reg VGA_GFX_GRAPHIC_MODE &&& 0x10 ≠ 0) ∧
    (chain4_dev 0x0e).seq_reg VGA_SEQ_MAP_MASK &&& 1 = 0 ∧
    selected_plane (chain4_dev 0x0e) 0xA0003 = 3 ∧
    vga_mmio_callback_write (chain4_dev 0x0e) 0xA0003 (fun _ => 0xAA) 1 = chain4_dev 0x0e :=
  ⟨by decide, by decide, by decide,
    (mmio_gate_as_coded (chain4_dev 0x0e) 0xA0003 (fun _ => 0xAA) 1 0 (by decide)).2.2.2.1
      (by decide)⟩

theorem memory_map_mode_values (x : Nat) :
    u8 (x &&& VGA_GFX_MISC_MM) = 0 ∨ u8 (x &&& VGA_GFX_MISC_MM) = 4 ∨
    u8 (x &&& VGA_GFX_MISC_MM) = 8 ∨ u8 (x &&& VGA_GFX_MISC_MM) = 12 := by
  have h1 : x &&& 0x0c ≤ 0x0c := Nat.and_le_right
  have h2 : (x &&& 0x0c) % 4 = 0 := by
    have h := Nat.and_pow_two_sub_one_eq_mod (x &&& 0x0c) 2
    rw [Nat.and_assoc, show (0x0c &&& (2 ^ 2 - 1) : Nat) = 0 by decide, Nat.and_zero] at h
    omega
  have h3 : u8 (x &&& 0x0c) = x &&& 0x0c := Nat.mod_eq_of_lt (by omega)
  show u8 (x &&& 0x0c) = 0 ∨ u8 (x &&& 0x0c) = 4 ∨ u8 (x &&& 0x0c) = 8 ∨ u8 (x &&& 0x0c) = 12
  rw [h3]
  omega

theorem u64_sub_window (addr : Nat) (h1 : 0xA0000 ≤ addr) (h2 : addr < 2 ^ 64) :
    u64_sub addr 0xA0000 = addr - 0xA0000 := by
  unfold u64_sub
  norm_num at h2 ⊢
  omega

/-- C20: for every device state and every MMIO write whose byte range lies
inside the registered window (`0xA0000 ≤ addr`, `addr + len ≤ 0xA0000 +
0x20000`): the masked memory-map field is 0, 4, 8 or 12; the handler's
working address is `addr - 0xA0000` when the field is 0 and `addr` itself
otherwise, so the only subtraction performed is that of 0xA0000 and it does
not wrap; the handler either does nothing or copies the buffer to the
working address; every position `working address + k`, `k < len`, is below
`PLANE_SIZE`; and no position at or beyond `PLANE_SIZE` changes. -/
theorem mmio_write_in_bounds (s : vga_device) (addr : Nat) (data : Nat → Nat) (len : Nat)
    (h1 : 0xA0000 ≤ addr) (h2 : addr + len ≤ 0xA0000 + 0x20000) :
    (u8 (s.gfx_reg VGA_GFX_MISC &&& VGA_GFX_MISC_MM) ∈ [0, 4, 8, 12]) ∧
    (u8 (s.gfx_reg VGA_GFX_MISC &&& VGA_GFX_MISC_MM) = 0 →
      rebased_addr s addr = addr - 0xA0000) ∧
    (u8 (s.gfx_reg VGA_GFX_MISC &&& VGA_GFX_MISC_MM) ≠ 0 → rebased_addr s addr = addr) ∧
    (vga_mmio_callback_write s addr data len = s ∨
      vga_mmio_callback_write s addr data len =
        { s with plane := memcpy s.plane (rebased_addr s addr) data len }) ∧
    rebased_addr s addr + len ≤ PLANE_SIZE ∧
    (∀ k, k < len → rebased_addr s addr + k < PLANE_SIZE) ∧
    (∀ j, PLANE_SIZE ≤ j → (vga_mmio_callback_write s addr data len).plane j = s.plane j) := by
  have hmm := memory_map_mode_values (s.gfx_reg VGA_GFX_MISC)
  have hzero : u8 (s.gfx_reg VGA_GFX_MISC &&& VGA_GFX_MISC_MM) = 0 →
      rebased_addr s addr = addr - 0xA0000 := by
    intro h
    have hlt : addr < 2 ^ 64 := by
      have : (0xA0000 + 0x20000 : Nat) < 2 ^ 64 := by norm_num
      omega
    simp only [rebased_addr, mmio_rebase, h, if_true]
    exact u64_sub_window addr h1 hlt
  have hnz : u8 (s.gfx_reg VGA_GFX_MISC &&& VGA_GFX_MISC_MM) ≠ 0 → rebased_addr s addr = addr := by
    intro h
    unfold rebased_addr mmio_rebase
    rcases hmm with h0 | h4 | h8 | h12
    · exact absurd h0 h
    · rw [h4]; rfl
    · rw [h8]; rfl
    · rw [h12]; rfl
  have hbound : rebased_addr s addr + len ≤ PLANE_SIZE := by
    have hp : PLANE_SIZE = 67108864 := by norm_num [PLANE_SIZE]
    by_cases h : u8 (s.gfx_reg VGA_GFX_MISC &&& VGA_GFX_MISC_MM) = 0
    · rw [hzero h, hp]; omega
    · rw [hnz h, hp]; omega
  have hcases : vga_mmio_callback_write s addr data len = s ∨
      vga_mmio_callback_write s addr data len =
        { s with plane := memcpy s.plane (rebased_addr s addr) data len } := by
    by_cases hmode : s.seq_reg VGA_SEQ_MEMORY_MODE &&& 0x08 ≠ 0 ∨
        s.gfx_reg VGA_GFX_GRAPHIC_MODE &&& 0x10 ≠ 0
    · rw [write_gated_branch s addr data len hmode]
      split_ifs
      · exact Or.inr rfl
      · exact Or.inl rfl
    · rw [not_or, not_not, not_not] at hmode
      exact Or.inl (write_planar_branch s addr data len hmode.1 hmode.2)
  refine ⟨?_, hzero, hnz, hcases, hbound, ?_, ?_⟩
  · simp only [List.mem_cons, List.mem_singleton, List.not_mem_nil, or_false]
    exact hmm
  · intro k hk
    omega
  · intro j hj
    rcases hcases with h | h
    · rw [h]
    · rw [h]
      have hnot : ¬ (rebased_addr s addr ≤ j ∧ j < rebased_addr s addr + len) := by omega
      simp [memcpy, hnot]

theorem mmio_write_in_bounds_witness :
    (0xA0000 ≤ 0xBFFFE ∧ 0xBFFFE + 2 ≤ 0xA0000 + 0x20000) ∧
    rebased_addr (window_dev 0x01 0x0c) 0xBFFFE = 0xBFFFE ∧
    rebased_addr (window_dev 0x01 0x0c) 0xBFFFE + 2 ≤ PLANE_SIZE :=
  have h := mmio_write_in_bounds (window_dev 0x01 0x0c) 0xBFFFE (fun _ => 0xAA) 2
    (by decide) (by decide)
  ⟨by decide, h.2.2.1 (by decide), h.2.2.2.2.1⟩

/-! ## Reachable devices -/

theorem ite_prop {α : Type} (P : α → Prop) {c : Prop} [Decidable c] {a b : α}
    (ha : c → P a) (hb : ¬ c → P b) : P (if c then a else b) := by
  by_cases h : c
  · rw [if_pos h]; exact ha h
  · rw [if_neg h]; exact hb h

theorem ite_prop_fst {α β : Type} (P : α → Prop) {c : Prop} [Decidable c] {a b : α × β}
    (ha : c → P a.1) (hb : ¬ c → P b.1) : P (if c then a else b).1 := by
  by_cases h : c
  · rw [if_pos h]; exact ha h
  · rw [if_neg h]; exact hb h

theorem run_invariant (P : vga_device → Prop)
    (hstep : ∀ s a, P s → P (access s a)) :
    ∀ (l : List guest_access) (s : vga_device), P s → P (run s l) := by
  intro l
  induction l with
  | nil => intro s h; exact h
  | cons a l ih =>
    intro s h
    exact ih (access s a) (hstep s a h)

theorem access_mmio_plane_only (s : vga_device) (addr : Nat) (data : Nat → Nat)
    (len w : Nat) :
    ∃ p, (vga_mmio_callback s addr data len w).1 = { s with plane := p } := by
  unfold vga_mmio_callback
  split_ifs
  · simp only [vga_mmio_callback_write]
    split_ifs
    · exact ⟨_, rfl⟩
    · exact ⟨s.plane, rfl⟩
    · exact ⟨_, rfl⟩
    · exact ⟨s.plane, rfl⟩
    · exact ⟨s.plane, rfl⟩
  · exact ⟨s.plane, rfl⟩

theorem att_store_dac (s : vga_device) (i v : Nat) (h : dac_inv s) :
    dac_inv (att_store s i v) := by
  unfold att_store
  split_ifs <;> exact h

theorem out_att_data_write_dac (s : vga_device) (v : Nat) (h : dac_inv s) :
    dac_inv (out_att_data_write s v) := by
  unfold out_att_data_write
  split_ifs
  · exact h
  · exact att_store_dac s _ v h

theorem out_dac_data_dac (s : vga_device) (v : Nat) (h : dac_inv s) :
    dac_inv (out_dac_data s v) := by
  obtain ⟨h1, h2, h3, h4, h5⟩ := h
  have hv : u8 (v &&& 0x3f) ≤ 0x3f := by
    rw [u8_and_3f]; exact Nat.and_le_right
  have hreg : ∀ k, arr_set s.dac_sub_reg s.dac_sub_index (u8 (v &&& 0x3f)) k ≤ 0x3f := by
    intro k
    unfold arr_set
    split_ifs
    · exact hv
    · exact h3 k
  have hpal : ∀ j, memcpy s.dac_palette (s.dac_write_index * 3)
      (arr_set s.dac_sub_reg s.dac_sub_index (u8 (v &&& 0x3f))) 3 j ≤ 0x3f := by
    intro j
    simp only [memcpy]
    split_ifs
    · exact hreg _
    · exact h2 j
  unfold out_dac_data
  dsimp only
  split_ifs with hsub
  · exact ⟨Nat.zero_lt_succ 2, hpal, hreg, h4, Nat.mod_lt _ (Nat.zero_lt_succ 255)⟩
  · refine ⟨?_, h2, hreg, h4, h5⟩
    show u8 (s.dac_sub_index + 1) < 3
    unfold u8 at hsub ⊢
    omega

theorem in_dac_data_dac (s : vga_device) (v : Nat) (h : dac_inv s) :
    dac_inv (in_dac_data s v).1 := by
  obtain ⟨h1, h2, h3, h4, h5⟩ := h
  unfold in_dac_data
  dsimp only
  split_ifs with hsub
  · exact ⟨Nat.zero_lt_succ 2, h2, h3, Nat.mod_lt _ (Nat.zero_lt_succ 255), h5⟩
  · refine ⟨?_, h2, h3, h4, h5⟩
    show u8 (s.dac_sub_index + 1) < 3
    unfold u8 at hsub ⊢
    omega

theorem outb_dac (s : vga_device) (port data : Nat) (h : dac_inv s) :
    dac_inv (outb s port data) := by
  have hb : u8 (ioport__read8 data) < 256 := Nat.mod_lt _ (Nat.zero_lt_succ 255)
  show dac_inv (out_switch s port (ioport__read8 data))
  unfold out_switch
  refine ite_prop dac_inv (fun _ => h) (fun _ => ?_)
  refine ite_prop dac_inv (fun _ => h) (fun _ => ?_)
  refine ite_prop dac_inv (fun _ => h) (fun _ => ?_)
  refine ite_prop dac_inv (fun _ => h) (fun _ => ?_)
  refine ite_prop dac_inv (fun _ => h) (fun _ => ?_)
  refine ite_prop dac_inv (fun _ => out_att_data_write_dac _ _ h) (fun _ => ?_)
  refine ite_prop dac_inv (fun _ => out_att_data_write_dac _ _ h) (fun _ => ?_)
  refine ite_prop dac_inv
    (fun _ => ⟨Nat.zero_lt_succ 2, h.2.1, h.2.2.1, hb, h.2.2.2.2⟩) (fun _ => ?_)
  refine ite_prop dac_inv
    (fun _ => ⟨Nat.zero_lt_succ 2, h.2.1, h.2.2.1, h.2.2.2.1, hb⟩) (fun _ => ?_)
  refine ite_prop dac_inv (fun _ => out_dac_data_dac _ _ h) (fun _ => ?_)
  refine ite_prop dac_inv (fun _ => h) (fun _ => ?_)
  refine ite_prop dac_inv (fun _ => h) (fun _ => ?_)
  exact ite_prop dac_inv (fun _ => h) (fun _ => h)

theorem in_att_data_write_dev (s : vga_device) (v : Nat) : (in_att_data_write s v).1 = s := by
  unfold in_att_data_write
  split_ifs <;> rfl

theorem after_inb_dac (s : vga_device) (port : Nat) (h : dac_inv s) :
    dac_inv (after_inb s port) := by
  have hatt : ∀ v, dac_inv (in_att_data_write s v).1 := by
    intro v; rw [in_att_data_write_dev]; exact h
  show dac_inv (in_switch s port 0).1
  unfold in_switch
  refine ite_prop_fst dac_inv (fun _ => h) (fun _ => ?_)
  refine ite_prop_fst dac_inv (fun _ => h) (fun _ => ?_)
  refine ite_prop_fst dac_inv (fun _ => h) (fun _ => ?_)
  refine ite_prop_fst dac_inv (fun _ => h) (fun _ => ?_)
  refine ite_prop_fst dac_inv (fun _ => h) (fun _ => ?_)
  refine ite_prop_fst dac_inv (fun _ => hatt _) (fun _ => ?_)
  refine ite_prop_fst dac_inv (fun _ => hatt _) (fun _ => ?_)
  refine ite_prop_fst dac_inv (fun _ => h) (fun _ => ?_)
  refine ite_prop_fst dac_inv (fun _ => h) (fun _ => ?_)
  refine ite_prop_fst dac_inv (fun _ => h) (fun _ => ?_)
  refine ite_prop_fst dac_inv (fun _ => in_dac_data_dac _ _ h) (fun _ => ?_)
  refine ite_prop_fst dac_inv (fun _ => h) (fun _ => ?_)
  refine ite_prop_fst dac_inv (fun _ => h) (fun _ => ?_)
  refine ite_prop_fst dac_inv (fun _ => h) (fun _ => ?_)
  exact ite_prop_fst dac_inv (fun _ => h) (fun _ => h)

theorem access_dac (s : vga_device) (a : guest_access) (h : dac_inv s) :
    dac_inv (access s a) := by
  cases a with
  | port_in port => exact after_inb_dac s port h
  | port_out port data => exact outb_dac s port data h
  | mmio_write addr data len =>
    obtain ⟨p, hp⟩ := access_mmio_plane_only s addr data len 1
    show dac_inv (vga_mmio_callback s addr data len 1).1
    rw [hp]; exact h
  | mmio_read addr data len =>
    obtain ⟨p, hp⟩ := access_mmio_plane_only s addr data len 0
    show dac_inv (vga_mmio_callback s addr data len 0).1
    rw [hp]; exact h

theorem dac_inv_vga : dac_inv vga :=
  ⟨by decide, fun _ => Nat.zero_le _, fun _ => Nat.zero_le _, by decide, by decide⟩

/-- C11: in every device reachable from the attach-time device by a sequence
of port INs, port OUTs, MMIO writes and MMIO reads (any port, address and
value), `dac_sub_index` is 0, 1 or 2 and every byte of `dac_palette` is at
most 0x3F; hence the palette position `read_index * 3 + sub_index` of a
data-port read and the last position `write_index * 3 + 2` of a commit, and
with it the two before, are below 768. -/
theorem dac_state_invariant (l : List guest_access) :
    ((run vga l).dac_sub_index = 0 ∨ (run vga l).dac_sub_index = 1 ∨
      (run vga l).dac_sub_index = 2) ∧
    (∀ j, (run vga l).dac_palette j ≤ 0x3f) ∧
    (run vga l).dac_read_index * 3 + (run vga l).dac_sub_index < 768 ∧
    (run vga l).dac_write_index * 3 + 2 < 768 := by
  obtain ⟨h1, h2, _, h4, h5⟩ := run_invariant dac_inv access_dac l vga dac_inv_vga
  exact ⟨by omega, h2, by omega, by omega⟩

theorem out_att_data_write_att (s : vga_device) (v : Nat) (h : att_inv s) :
    att_inv (out_att_data_write s v) := by
  unfold out_att_data_write
  rw [if_pos h.1]
  exact h

theorem out_dac_data_att (s : vga_device) (v : Nat) (h : att_inv s) :
    att_inv (out_dac_data s v) := by
  unfold out_dac_data
  dsimp only
  split_ifs <;> exact h

theorem in_dac_data_att (s : vga_device) (v : Nat) (h : att_inv s) :
    att_inv (in_dac_data s v).1 := by
  unfold in_dac_data
  dsimp only
  split_ifs <;> exact h

theorem outb_att (s : vga_device) (port data : Nat) (h : att_inv s) :
    att_inv (outb s port data) := by
  show att_inv (out_switch s port (ioport__read8 data))
  unfold out_switch
  refine ite_prop att_inv (fun _ => h) (fun _ => ?_)
  refine ite_prop att_inv (fun _ => h) (fun _ => ?_)
  refine ite_prop att_inv (fun _ => h) (fun _ => ?_)
  refine ite_prop att_inv (fun _ => h) (fun _ => ?_)
  refine ite_prop att_inv (fun _ => h) (fun _ => ?_)
  refine ite_prop att_inv (fun _ => out_att_data_write_att _ _ h) (fun _ => ?_)
  refine ite_prop att_inv (fun _ => out_att_data_write_att _ _ h) (fun _ => ?_)
  refine ite_prop att_inv (fun _ => h) (fun _ => ?_)
  refine ite_prop att_inv (fun _ => h) (fun _ => ?_)
  refine ite_prop att_inv (fun _ => out_dac_data_att _ _ h) (fun _ => ?_)
  refine ite_prop att_inv (fun _ => h) (fun _ => ?_)
  refine ite_prop att_inv (fun _ => h) (fun _ => ?_)
  exact ite_prop att_inv (fun _ => h) (fun _ => h)

theorem after_inb_att (s : vga_device) (port : Nat) (h : att_inv s) :
    att_inv (after_inb s port) := by
  have hatt : ∀ v, att_inv (in_att_data_write s v).1 := by
    intro v; rw [in_att_data_write_dev]; exact h
  have hst : att_inv { s with att_reg_flip := 0 } := ⟨rfl, h.2⟩
  show att_inv (in_switch s port 0).1
  unfold in_switch
  refine ite_prop_fst att_inv (fun _ => h) (fun _ => ?_)
  refine ite_prop_fst att_inv (fun _ => h) (fun _ => ?_)
  refine ite_prop_fst att_inv (fun _ => h) (fun _ => ?_)
  refine ite_prop_fst att_inv (fun _ => h) (fun _ => ?_)
  refine ite_prop_fst att_inv (fun _ => h) (fun _ => ?_)
  refine ite_prop_fst att_inv (fun _ => hatt _) (fun _ => ?_)
  refine ite_prop_fst att_inv (fun _ => hatt _) (fun _ => ?_)
  refine ite_prop_fst att_inv (fun _ => h) (fun _ => ?_)
  refine ite_prop_fst att_inv (fun _ => h) (fun _ => ?_)
  refine ite_prop_fst att_inv (fun _ => h) (fun _ => ?_)
  refine ite_prop_fst att_inv (fun _ => in_dac_data_att _ _ h) (fun _ => ?_)
  refine ite_prop_fst att_inv (fun _ => h) (fun _ => ?_)
  refine ite_prop_fst att_inv (fun _ => hst) (fun _ => ?_)
  refine ite_prop_fst att_inv (fun _ => hst) (fun _ => ?_)
  exact ite_prop_fst att_inv (fun _ => hst) (fun _ => h)

theorem access_att (s : vga_device) (a : guest_access) (h : att_inv s) :
    att_inv (access s a) := by
  cases a with
  | port_in port => exact after_inb_att s port h
  | port_out port data => exact outb_att s port data h
  | mmio_write addr data len =>
    obtain ⟨p, hp⟩ := access_mmio_plane_only s addr data len 1
    show att_inv (vga_mmio_callback s addr data len 1).1
    rw [hp]; exact h
  | mmio_read addr data len =>
    obtain ⟨p, hp⟩ := access_mmio_plane_only s addr data len 0
    show att_inv (vga_mmio_callback s addr data len 0).1
    rw [hp]; exact h

theorem att_inv_vga : att_inv vga :=
  ⟨rfl, fun _ => rfl⟩

/-- C18: in every device reachable from the attach-time device by a sequence
of port INs, port OUTs, MMIO writes and MMIO reads (any port, address and
value), `att_reg_flip` is 0 and every slot of `att_reg` is 0; and an OUT of
any value `v` to port 0x3C0 in such a device changes `att_reg_index`, to the
low six bits of the byte `v`, and nothing else. -/
theorem att_latch_stuck (l : List guest_access) (v : Nat) :
    (run vga l).att_reg_flip = 0 ∧
    (∀ j, (run vga l).att_reg j = 0) ∧
    outb (run vga l) 0x3c0 v = { run vga l with att_reg_index := (v % 256) &&& 0x3f } := by
  obtain ⟨h1, h2⟩ := run_invariant att_inv access_att l vga att_inv_vga
  refine ⟨h1, h2, ?_⟩
  simp [outb, vga_ioport_out, out_switch, out_att_data_write, h1, u8_and_3f, ioport__read8]

end KvmVga
